import Mathlib

/-!
Verification of `scripts/publisher/step1/migrate.py` (the normalize-and-upsert
migration pipeline).  Python values flowing through the script are modelled by
the shallow JSON embedding `JValue` below; Python's truthiness, `str()`,
`str.strip()` and `dict.get` are modelled explicitly.  Numbers are modelled as
integers (the identifier-related claims only distinguish zero from non-zero,
and string forms of integers).
-/

/-- A JSON/Python value as it appears in the migrated role records.
Objects are finite maps modelled as association lists with distinct keys
(Python dicts cannot hold duplicate keys). -/
inductive JValue where
  | null
  | bool (b : Bool)
  | num (n : Int)
  | str (s : String)
  | arr (elems : List JValue)
  | obj (fields : List (String × JValue))

/-- Python truthiness (`bool(v)`): `None`, `False`, `0`, `""`, `[]`, `{}` are
falsy, everything else truthy. -/
def truthy : JValue → Bool
  | .null => false
  | .bool b => b
  | .num n => n != 0
  | .str s => s != ""
  | .arr elems => !elems.isEmpty
  | .obj fields => !fields.isEmpty

/-- Python `a or b`: the first operand when truthy, otherwise the second. -/
def pyOr (a b : JValue) : JValue := if truthy a then a else b

/-- A single-quote character, used by Python `repr` of strings. -/
def squote : String := String.singleton (Char.ofNat 39)

mutual
/-- Python `repr(v)` (escaping inside strings is not modelled; no claim
depends on it). -/
def pyRepr : JValue → String
  | .null => "None"
  | .bool true => "True"
  | .bool false => "False"
  | .num n => toString n
  | .str s => squote ++ s ++ squote
  | .arr elems => "[" ++ String.intercalate ", " (pyReprList elems) ++ "]"
  | .obj fields => "\x7b" ++ String.intercalate ", " (pyReprFields fields) ++ "\x7d"

def pyReprList : List JValue → List String
  | [] => []
  | v :: vs => pyRepr v :: pyReprList vs

def pyReprFields : List (String × JValue) → List String
  | [] => []
  | (k, v) :: fs => (squote ++ k ++ squote ++ ": " ++ pyRepr v) :: pyReprFields fs
end

/-- Python `str(v)`: the string itself for strings, `repr`-based rendering for
everything else (`str` and `repr` agree on `None`, booleans, numbers and
containers). -/
def pyStr (v : JValue) : String :=
  match v with
  | .str s => s
  | v => pyRepr v

/-- The whitespace characters removed by Python `str.strip()` (ASCII部分:
space, tab, newline, carriage return, vertical tab, form feed). -/
def pyIsSpace (c : Char) : Bool :=
  c = ' ' || c = '\t' || c = '\n' || c = '\r' || c = Char.ofNat 11 || c = Char.ofNat 12

/-- Python `s.strip()`: remove leading and trailing whitespace. -/
def pyStrip (s : String) : String :=
  String.mk (((s.toList.dropWhile pyIsSpace).reverse.dropWhile pyIsSpace).reverse)

/-- Key lookup in a Python dict (association list model). -/
def dictFind : List (String × JValue) → String → Option JValue
  | [], _ => none
  | (k, v) :: rest, key => if k = key then some v else dictFind rest key

/-- Python `d.get(key)`: `None` when the key is absent. -/
def dictGet (fields : List (String × JValue)) (key : String) : JValue :=
  (dictFind fields key).getD .null

/-- Python `d.get(key, default)`. -/
def dictGetD (fields : List (String × JValue)) (key : String) (dflt : JValue) : JValue :=
  (dictFind fields key).getD dflt

/-- `if not isinstance(x, dict): x = \x7b\x7d` — coerce a value to a dict,
replacing any non-dict by the empty dict (migrate.py lines 92-98). -/
def asObjFields : JValue → List (String × JValue)
  | .obj fields => fields
  | _ => []

/-- `ensure_optional_str` (migrate.py lines 69-73): `None` maps to `None`;
otherwise stringify and strip, with an empty result mapped to `None`. -/
def ensure_optional_str (v : JValue) : Option String :=
  match v with
  | .null => none
  | v =>
      let text := pyStrip (pyStr v)
      if text = "" then none else some text

/-- The flat payload built by `normalize_role` (migrate.py lines 112-149):
one mandatory string identifier, optional trimmed strings, and three opaque
JSON fields passed through unchanged (`None` when absent). -/
structure NormalizedRecord where
  role_id : String
  spec : Option String
  spec_version : Option String
  name : Option String
  description : Option String
  personality : Option String
  scenario : Option String
  first_mes : Option String
  mes_example : Option String
  creator : Option String
  character_version : Option String
  creator_notes : Option String
  system_prompt : Option String
  post_history_instructions : Option String
  alternate_greetings : JValue
  character_book : JValue
  tags : JValue
  title : Option String
  summary : Option String
  deeplink : Option String
  avatar : Option String

/-- Python exceptions that the migration paths raise. -/
inductive PyErr where
  | valueError (msg : String)
  | attributeError

/-- `data = role_wrapper.get("data", \x7b\x7d)` coerced to a dict
(migrate.py lines 91-94). -/
def dataOf (wfields : List (String × JValue)) : List (String × JValue) :=
  asObjFields (dictGetD wfields "data" (.obj []))

/-- `extensions = data.get("extensions", \x7b\x7d)` coerced to a dict
(migrate.py lines 96-98). -/
def extensionsOf (dfields : List (String × JValue)) : List (String × JValue) :=
  asObjFields (dictGetD dfields "extensions" (.obj []))

/-- `role_id_raw = extensions.get("role_id") or data.get("role_id")`
(migrate.py line 102). -/
def roleIdRawOf (wfields : List (String × JValue)) : JValue :=
  pyOr (dictGet (extensionsOf (dataOf wfields)) "role_id")
       (dictGet (dataOf wfields) "role_id")

/-- `normalize_role` (migrate.py lines 76-151).  On a non-dict wrapper the
Python `.get` call raises `AttributeError`; with no usable `role_id` it raises
`ValueError`; otherwise it builds the flat payload, stripping the stringified
identifier and trimming every optional text field. -/
def normalize_role (role_wrapper : JValue) : Except PyErr NormalizedRecord :=
  match role_wrapper with
  | .obj wfields =>
      let data := dataOf wfields
      let extensions := extensionsOf (dataOf wfields)
      let role_id_raw := roleIdRawOf wfields
      if truthy role_id_raw then
        .ok
          { role_id := pyStrip (pyStr role_id_raw)
            spec := ensure_optional_str (dictGet wfields "spec")
            spec_version := ensure_optional_str (dictGet wfields "spec_version")
            name := ensure_optional_str (dictGet data "name")
            description := ensure_optional_str (dictGet data "description")
            personality := ensure_optional_str (dictGet data "personality")
            scenario := ensure_optional_str (dictGet data "scenario")
            first_mes := ensure_optional_str (dictGet data "first_mes")
            mes_example := ensure_optional_str (dictGet data "mes_example")
            creator := ensure_optional_str (dictGet data "creator")
            character_version := ensure_optional_str (dictGet data "character_version")
            creator_notes := ensure_optional_str (dictGet data "creator_notes")
            system_prompt := ensure_optional_str (dictGet data "system_prompt")
            post_history_instructions :=
              ensure_optional_str (dictGet data "post_history_instructions")
            alternate_greetings := dictGet data "alternate_greetings"
            character_book := dictGet data "character_book"
            tags := dictGet data "tags"
            title := ensure_optional_str (dictGet extensions "title")
            summary := ensure_optional_str (dictGet extensions "summary")
            deeplink := ensure_optional_str (dictGet extensions "deeplink")
            avatar := ensure_optional_str (dictGet data "avatar") }
      else
        .error (.valueError "role_id is missing in data.extensions or data")
  | _ => .error .attributeError

/-- Projection used to state identifier claims: the `role_id` of a successful
normalization. -/
def roleIdOfResult (r : Except PyErr NormalizedRecord) : Option String :=
  match r with
  | .ok record => some record.role_id
  | .error _ => none

/-- `chunked` (migrate.py lines 154-156) for a positive chunk size: slice the
sequence into consecutive `size`-element pieces (`data[idx : idx + size]`),
the last piece possibly shorter.  `main` guarantees `size >= 1` before this
runs (line 225). -/
def chunkedRaw (data : List α) (size : Nat) : List (List α) :=
  if _h : size = 0 then []
  else if _hd : data.isEmpty then []
  else data.take size :: chunkedRaw (data.drop size) size
termination_by data.length
decreasing_by
  simp only [List.length_drop]
  cases data with
  | nil => simp at _hd
  | cons a l => cases size with
    | zero => exact absurd rfl _h
    | succ m => simp; omega

/-- The batch operation as the orchestrator runs it: the guard at migrate.py
line 225 (`batch-size must be a positive integer`) followed by `chunked`. -/
def batchOp (data : List α) (size : Int) : Except String (List (List α)) :=
  if size ≤ 0 then .error "batch-size must be a positive integer"
  else .ok (chunkedRaw data size.toNat)

/-- One per-record retry step inside the degraded tier of `upsert_roles`
(migrate.py lines 204-216): a successful single upsert increments the
accepted count, a failing one appends `(role_id, error_message)`.
`singleTry` is the remote store oracle for single-row upserts (`none` means
the request succeeded, `some msg` that it raised `msg`); `roleId` extracts
the record's identifier (`role.get("role_id", "UNKNOWN")`, always present on
normalized records). -/
def retryRecord (singleTry : R → Option String) (roleId : R → String)
    (acc : Nat × List (String × String)) (r : R) : Nat × List (String × String) :=
  match singleTry r with
  | none => (acc.1 + 1, acc.2)
  | some e => (acc.1, acc.2 ++ [(roleId r, e)])

/-- The body of the per-batch loop of `upsert_roles` (migrate.py lines
191-216): try the whole batch in one request (`batchTry`); on success count
every record accepted, on any exception degrade to one single-row request per
record, in order. -/
def processBatch (batchTry : List R → Option String) (singleTry : R → Option String)
    (roleId : R → String) (acc : Nat × List (String × String)) (batch : List R) :
    Nat × List (String × String) :=
  match batchTry batch with
  | none => (acc.1 + batch.length, acc.2)
  | some _ => batch.foldl (retryRecord singleTry roleId) acc

/-- `upsert_roles` (migrate.py lines 181-218): fold the two-tier write over
the chunks, accumulating the accepted count and the failure list. -/
def upsert_roles (batchTry : List R → Option String) (singleTry : R → Option String)
    (roleId : R → String) (roles : List R) (batch_size : Nat) :
    Nat × List (String × String) :=
  (chunkedRaw roles batch_size).foldl (processBatch batchTry singleTry roleId) (0, [])

/-- The best-effort identifier-hint extraction in `main`'s except-handler
(migrate.py lines 243-248).  `data.get("extensions", \x7b\x7d)` is used
without an isinstance check, so when `data` holds a non-dict `extensions`
value the chained `.get("role_id")` raises `AttributeError` (the `.error`
branch), which the surrounding `except ValueError` does not catch. -/
def roleIdHint (role : JValue) : Except PyErr JValue :=
  match role with
  | .obj rfields =>
      match dictGetD rfields "data" (.obj []) with
      | .obj dfields =>
          match dictGetD dfields "extensions" (.obj []) with
          | .obj efields =>
              .ok (pyOr (pyOr (dictGet efields "role_id") (dictGet dfields "role_id"))
                        (.str "UNKNOWN"))
          | _ => .error .attributeError
      | _ => .ok (.str "UNKNOWN")
  | _ => .ok (.str "UNKNOWN")

/-- The normalization loop of `main` (migrate.py lines 236-251): normalize
each record; a `ValueError` routes the record to `skipped` with the
best-effort hint; an `AttributeError` (from `normalize_role` on a non-dict
record, or from the hint extraction itself) is uncaught and aborts the run
(the `.error` result). -/
def normalizeLoop : List JValue →
    Except PyErr (List NormalizedRecord × List (JValue × String))
  | [] => .ok ([], [])
  | role :: rest =>
      match normalize_role role with
      | .ok record =>
          match normalizeLoop rest with
          | .ok (normalized, skipped) => .ok (record :: normalized, skipped)
          | .error e => .error e
      | .error (.valueError msg) =>
          match roleIdHint role with
          | .ok hint =>
              match normalizeLoop rest with
              | .ok (normalized, skipped) => .ok (normalized, (hint, msg) :: skipped)
              | .error e => .error e
          | .error e => .error e
      | .error .attributeError => .error .attributeError

/-- `load_roles` (migrate.py lines 167-178) over an already-read file: a
missing file or malformed JSON is the incoming `.error`; a bare object is
wrapped in a one-element list; a list is taken as is; any other top-level
value raises `ValueError`. -/
def load_roles (content : Except String JValue) : Except String (List JValue) :=
  match content with
  | .error e => .error e
  | .ok (.obj fields) => .ok [.obj fields]
  | .ok (.arr elems) => .ok elems
  | .ok _ => .error "JSON file must contain a list or a single object"

/-- The observable stages of one `main` run, in execution order. -/
inductive Event where
  | checkBatchSize
  | readRecords
  | normalizeRecords
  | checkCredentials
  | upsertWrites
deriving DecidableEq, Repr

/-- How the process ends: `fatal` models an uncaught exception (non-zero exit
status), `completed` a normal return from `main` (exit status zero). -/
inductive Outcome where
  | fatal (msg : String)
  | completed
deriving DecidableEq, Repr

/-- The run configuration of `main`: the parsed `--batch-size`, the raw file
content (or the I/O error reading it), whether `SUPABASE_URL`/`SUPABASE_KEY`
are both set and non-empty, and the `--dry-run` flag. -/
structure Env where
  batch_size : Int
  fileContent : Except String JValue
  hasCreds : Bool
  dry_run : Bool

/-- `main` (migrate.py lines 221-282) as an event trace plus final outcome:
the batch-size guard (line 225) raises before the file is read; a `load_roles`
failure is caught, printed and followed by a plain `return` (line 232 — exit
status zero); normalization runs next (lines 239-251, aborting only on an
uncaught `AttributeError`); a dry run returns before any credential check or
write; otherwise `create_supabase_client` (lines 159-164) raises when the
credentials are absent, and `upsert_roles` itself never raises. -/
def mainRun (env : Env) : List Event × Outcome :=
  if env.batch_size ≤ 0 then
    ([.checkBatchSize], .fatal "batch-size must be a positive integer")
  else
    match load_roles env.fileContent with
    | .error _ => ([.checkBatchSize, .readRecords], .completed)
    | .ok roles =>
        match normalizeLoop roles with
        | .error _ =>
            ([.checkBatchSize, .readRecords, .normalizeRecords], .fatal "AttributeError")
        | .ok _ =>
            if env.dry_run then
              ([.checkBatchSize, .readRecords, .normalizeRecords], .completed)
            else if env.hasCreds then
              ([.checkBatchSize, .readRecords, .normalizeRecords, .checkCredentials,
                .upsertWrites], .completed)
            else
              ([.checkBatchSize, .readRecords, .normalizeRecords, .checkCredentials],
               .fatal "SUPABASE_URL and SUPABASE_KEY must be set in environment variables")

/-! ### Helper lemmas -/

theorem pyStrip_eq_empty_iff (s : String) :
    pyStrip s = "" ↔ s.toList.all pyIsSpace := by
  unfold pyStrip
  constructor
  · intro h
    have hnil : ((s.toList.dropWhile pyIsSpace).reverse.dropWhile pyIsSpace).reverse = [] := by
      have := congrArg String.toList h
      simpa using this
    have hnil2 : (s.toList.dropWhile pyIsSpace).reverse.dropWhile pyIsSpace = [] := by
      simpa using congrArg List.reverse hnil
    have hall : ∀ x ∈ (s.toList.dropWhile pyIsSpace).reverse, pyIsSpace x :=
      List.dropWhile_eq_nil_iff.mp hnil2
    have hall2 : ∀ x ∈ s.toList.dropWhile pyIsSpace, pyIsSpace x := by
      intro x hx
      exact hall x (List.mem_reverse.mpr hx)
    rw [List.all_eq_true]
    intro x hx
    rw [← List.takeWhile_append_dropWhile (p := pyIsSpace) (l := s.toList)] at hx
    rcases List.mem_append.mp hx with h1 | h2
    · exact List.mem_takeWhile_imp h1
    · exact hall2 x h2
  · intro h
    have h2 : s.toList.dropWhile pyIsSpace = [] := by
      rw [List.dropWhile_eq_nil_iff]
      intro x hx
      exact List.all_eq_true.mp h x hx
    rw [h2]
    rfl

theorem normalize_ok_roleId (wfields : List (String × JValue))
    (h : truthy (roleIdRawOf wfields)) :
    roleIdOfResult (normalize_role (.obj wfields))
      = some (pyStrip (pyStr (roleIdRawOf wfields))) := by
  simp [normalize_role, roleIdOfResult, h]

theorem normalize_fail_iff (wfields : List (String × JValue)) :
    normalize_role (.obj wfields)
        = .error (.valueError "role_id is missing in data.extensions or data")
      ↔ ¬ truthy (roleIdRawOf wfields) := by
  by_cases h : truthy (roleIdRawOf wfields) <;> simp [normalize_role, h]

theorem chunkedRaw_nil (size : Nat) : chunkedRaw ([] : List α) size = [] := by
  unfold chunkedRaw
  simp

theorem chunkedRaw_cons (data : List α) (size : Nat) (hs : size ≠ 0) (hd : data ≠ []) :
    chunkedRaw data size = data.take size :: chunkedRaw (data.drop size) size := by
  rw [chunkedRaw]
  simp [hs, hd]

theorem chunked_join (data : List α) (size : Nat) (hs : size ≠ 0) :
    (chunkedRaw data size).flatten = data := by
  by_cases hd : data = []
  · subst hd
    simp [chunkedRaw_nil]
  · rw [chunkedRaw_cons data size hs hd]
    simp only [List.flatten_cons]
    rw [chunked_join (data.drop size) size hs]
    exact List.take_append_drop size data
termination_by data.length
decreasing_by
  simp only [List.length_drop]
  have h1 : 0 < data.length := List.length_pos.mpr hd
  omega

theorem chunked_length_le (data : List α) (size : Nat) (hs : size ≠ 0) :
    ∀ c ∈ chunkedRaw data size, c.length ≤ size := by
  by_cases hd : data = []
  · subst hd
    simp [chunkedRaw_nil]
  · rw [chunkedRaw_cons data size hs hd]
    intro c hc
    rcases List.mem_cons.mp hc with h1 | h2
    · subst h1
      exact List.length_take_le size data
    · exact chunked_length_le (data.drop size) size hs c h2
termination_by data.length
decreasing_by
  simp only [List.length_drop]
  have h1 : 0 < data.length := List.length_pos.mpr hd
  omega

theorem chunked_full_chunks (data : List α) (size : Nat) (hs : size ≠ 0) :
    ∀ c ∈ (chunkedRaw data size).dropLast, c.length = size := by
  by_cases hd : data = []
  · subst hd
    simp [chunkedRaw_nil]
  · rw [chunkedRaw_cons data size hs hd]
    by_cases hrest : data.drop size = []
    · rw [hrest, chunkedRaw_nil]
      simp
    · have hcons := chunkedRaw_cons (data.drop size) size hs hrest
      intro c hc
      rw [List.dropLast_cons_of_ne_nil (by rw [hcons]; exact List.cons_ne_nil _ _)] at hc
      rcases List.mem_cons.mp hc with h1 | h2
      · subst h1
        have hlen : size < data.length := by
          by_contra hcontra
          push_neg at hcontra
          exact hrest (List.drop_eq_nil_of_le hcontra)
        simp [List.length_take]
        omega
      · exact chunked_full_chunks (data.drop size) size hs c h2
termination_by data.length
decreasing_by
  simp only [List.length_drop]
  have h1 : 0 < data.length := List.length_pos.mpr hd
  omega

theorem foldl_retryRecord {R : Type} (singleTry : R → Option String) (roleId : R → String)
    (b : List R) (acc : Nat × List (String × String)) :
    b.foldl (retryRecord singleTry roleId) acc
      = (acc.1 + (b.filter (fun r => (singleTry r).isNone)).length,
         acc.2 ++ b.filterMap (fun r => (singleTry r).map (fun m => (roleId r, m)))) := by
  induction b generalizing acc with
  | nil => simp
  | cons r rest ih =>
      simp only [List.foldl_cons]
      rw [ih]
      cases h : singleTry r with
      | none =>
          simp [retryRecord, h, List.filter_cons, List.filterMap_cons]
          omega
      | some e =>
          simp [retryRecord, h, List.filter_cons, List.filterMap_cons]

theorem filter_none_filterMap_length {R : Type} (singleTry : R → Option String)
    (roleId : R → String) (b : List R) :
    (b.filter (fun r => (singleTry r).isNone)).length
      + (b.filterMap (fun r => (singleTry r).map (fun m => (roleId r, m)))).length
      = b.length := by
  induction b with
  | nil => simp
  | cons r rest ih =>
      cases h : singleTry r <;>
        simp [List.filter_cons, List.filterMap_cons, h] <;> omega

theorem processBatch_total {R : Type} (batchTry : List R → Option String)
    (singleTry : R → Option String) (roleId : R → String)
    (acc : Nat × List (String × String)) (b : List R) :
    (processBatch batchTry singleTry roleId acc b).1
      + (processBatch batchTry singleTry roleId acc b).2.length
      = acc.1 + acc.2.length + b.length := by
  unfold processBatch
  cases h : batchTry b with
  | none => simp; omega
  | some e =>
      rw [foldl_retryRecord]
      simp only
      have := filter_none_filterMap_length singleTry roleId b
      simp [List.length_append]
      omega

theorem foldl_processBatch_total {R : Type} (batchTry : List R → Option String)
    (singleTry : R → Option String) (roleId : R → String)
    (chunks : List (List R)) (acc : Nat × List (String × String)) :
    (chunks.foldl (processBatch batchTry singleTry roleId) acc).1
      + (chunks.foldl (processBatch batchTry singleTry roleId) acc).2.length
      = acc.1 + acc.2.length + (chunks.map List.length).sum := by
  induction chunks generalizing acc with
  | nil => simp
  | cons b rest ih =>
      simp only [List.foldl_cons, List.map_cons, List.sum_cons]
      rw [ih]
      rw [processBatch_total]
      omega

theorem truthy_pyOr (a b : JValue) : truthy (pyOr a b) = (truthy a || truthy b) := by
  by_cases h : truthy a <;> simp [pyOr, h]

/-! ### Claims -/

/-- Input for claim C1: a record whose resolved role identifier is the string
with a leading and a trailing blank. -/
def w1fields : List (String × JValue) :=
  [("data", .obj [("extensions", .obj [("role_id", .str " abc ")])])]

/-- Claim C1, counterexample: for the record whose resolved `role_id` is the
string with surrounding blanks, the identifier of the normalized output is the
stripped form, not the stringified resolved value with its whitespace
preserved. -/
theorem C1_counterexample :
    roleIdOfResult (normalize_role (.obj w1fields)) = some "abc"
    ∧ pyStr (roleIdRawOf w1fields) = " abc "
    ∧ ("abc" : String) ≠ " abc " := by
  refine ⟨by rfl, by rfl, by decide⟩

/-- Claim C1 (amended): for every RawRecord whose resolved `role_id` is a
non-empty string, the identifier of the normalized output is the stringified
resolved value with leading and trailing whitespace stripped. -/
theorem C1_role_id_stripped (wfields : List (String × JValue)) (s : String)
    (hres : roleIdRawOf wfields = JValue.str s) (hne : s ≠ "") :
    roleIdOfResult (normalize_role (.obj wfields)) = some (pyStrip s) := by
  have ht : truthy (roleIdRawOf wfields) := by
    rw [hres]
    simpa [truthy] using hne
  rw [normalize_ok_roleId wfields ht, hres]
  rfl

/-- Witness for C1: the amended theorem evaluated on the concrete record. -/
theorem C1_role_id_stripped_witness :
    roleIdOfResult (normalize_role (.obj w1fields)) = some "abc" := by
  have h := C1_role_id_stripped w1fields " abc " (by rfl) (by decide)
  rw [h]
  rfl

/-- Input for claim C2: a record whose role identifier is a whitespace-only
string (truthy in Python, so it passes the missing-identity guard, but it
strips to the empty string). -/
def w2fields : List (String × JValue) :=
  [("data", .obj [("extensions", .obj [("role_id", .str " ")])])]

/-- Claim C2, counterexample: normalization succeeds on a record whose
`role_id` is the one-blank string, and the identifier field of the output is
the EMPTY string — refuting the invariant that `role_id` is non-empty in every
NormalizedRecord. -/
theorem C2_counterexample :
    roleIdOfResult (normalize_role (.obj w2fields)) = some "" := by
  rfl

/-- Claim C2 (amended): in every NormalizedRecord the `role_id` field is
present, equal to the stripped string form of the resolved value, which is
sourced preferentially from `data.extensions.role_id` falling back to
`data.role_id`; it is non-empty unless the resolved value's string form
consists only of whitespace. -/
theorem C2_role_id_present (wfields : List (String × JValue)) (record : NormalizedRecord)
    (h : normalize_role (.obj wfields) = .ok record) :
    record.role_id = pyStrip (pyStr (roleIdRawOf wfields))
    ∧ roleIdRawOf wfields
        = pyOr (dictGet (extensionsOf (dataOf wfields)) "role_id")
               (dictGet (dataOf wfields) "role_id")
    ∧ (¬ (pyStr (roleIdRawOf wfields)).toList.all pyIsSpace → record.role_id ≠ "") := by
  by_cases ht : truthy (roleIdRawOf wfields)
  · have hr : record.role_id = pyStrip (pyStr (roleIdRawOf wfields)) := by
      have h2 := normalize_ok_roleId wfields ht
      rw [h] at h2
      simpa [roleIdOfResult] using h2
    refine ⟨hr, rfl, ?_⟩
    intro hns hempty
    rw [hr] at hempty
    exact hns ((pyStrip_eq_empty_iff _).mp hempty)
  · simp [normalize_role, ht] at h

/-- Witness for C2: the amended theorem evaluated on a record with a usable,
non-blank identifier. -/
theorem C2_role_id_present_witness :
    roleIdOfResult (normalize_role (.obj w1fields))
      = some (pyStrip (pyStr (roleIdRawOf w1fields))) := by
  cases hrec : normalize_role (.obj w1fields) with
  | error e =>
      have hc : roleIdOfResult (normalize_role (.obj w1fields)) = some "abc" := rfl
      rw [hrec] at hc
      exact absurd hc (by simp [roleIdOfResult])
  | ok record =>
      have h1 := (C2_role_id_present w1fields record hrec).1
      simp [roleIdOfResult, h1]

/-- Input for claim C3: a record whose resolved role identifier carries a
trailing blank. -/
def w3fields : List (String × JValue) :=
  [("data", .obj [("extensions", .obj [("role_id", .str "x3 ")])])]

/-- Claim C3, counterexample: the resolved value of this record is truthy, so
normalization succeeds, but the output identifier is the stripped string
rather than the stringified resolved value, refuting the second half of the
claim. -/
theorem C3_counterexample :
    roleIdOfResult (normalize_role (.obj w3fields)) = some "x3"
    ∧ pyStr (roleIdRawOf w3fields) = "x3 "
    ∧ ("x3" : String) ≠ "x3 " := by
  refine ⟨by rfl, by rfl, by decide⟩

/-- Claim C3 (amended): normalization fails with the missing-identity
`ValueError` exactly when both `data.extensions.role_id` and `data.role_id`
are unusable (null, absent, or falsy-but-present), and when either location
holds a truthy value it succeeds with the stringified resolved value stripped
of leading and trailing whitespace as identifier. -/
theorem C3_identity_iff (wfields : List (String × JValue)) :
    (normalize_role (.obj wfields)
        = .error (.valueError "role_id is missing in data.extensions or data")
      ↔ (¬ truthy (dictGet (extensionsOf (dataOf wfields)) "role_id")
          ∧ ¬ truthy (dictGet (dataOf wfields) "role_id")))
    ∧ (truthy (roleIdRawOf wfields) →
        roleIdOfResult (normalize_role (.obj wfields))
          = some (pyStrip (pyStr (roleIdRawOf wfields)))) := by
  constructor
  · rw [normalize_fail_iff]
    unfold roleIdRawOf
    rw [show (truthy (pyOr (dictGet (extensionsOf (dataOf wfields)) "role_id")
        (dictGet (dataOf wfields) "role_id")))
      = (truthy (dictGet (extensionsOf (dataOf wfields)) "role_id")
          || truthy (dictGet (dataOf wfields) "role_id")) from truthy_pyOr _ _]
    simp
  · exact normalize_ok_roleId wfields

/-- Witness for C3: a record carrying `role_id` only at `data.role_id` (the
fallback location), as a number: the extraction succeeds and stringifies it. -/
theorem C3_identity_iff_witness :
    roleIdOfResult (normalize_role (.obj [("data", .obj [("role_id", JValue.num 7)])]))
      = some "7" := by
  have h := (C3_identity_iff [("data", .obj [("role_id", JValue.num 7)])]).2 (by rfl)
  rw [h]
  rfl

/-- Claim C4: the optional-string rule — null maps to the absent marker, a
non-null value is stringified and trimmed with an empty-after-trim result
mapped to the absent marker (never the empty string), and any whitespace-only
input maps to the absent marker. -/
theorem C4_optional_str :
    ensure_optional_str .null = none
    ∧ (∀ v, ensure_optional_str v ≠ some "")
    ∧ (∀ v, v ≠ .null → pyStrip (pyStr v) ≠ "" →
        ensure_optional_str v = some (pyStrip (pyStr v)))
    ∧ (∀ v, v ≠ .null → pyStrip (pyStr v) = "" → ensure_optional_str v = none)
    ∧ (∀ s, s.toList.all pyIsSpace → ensure_optional_str (.str s) = none) := by
  refine ⟨rfl, ?_, ?_, ?_, ?_⟩
  · intro v
    cases v with
    | null => simp [ensure_optional_str]
    | bool b => simp only [ensure_optional_str]; split <;> simp_all
    | num n => simp only [ensure_optional_str]; split <;> simp_all
    | str s => simp only [ensure_optional_str]; split <;> simp_all
    | arr elems => simp only [ensure_optional_str]; split <;> simp_all
    | obj fields => simp only [ensure_optional_str]; split <;> simp_all
  · intro v hv hne
    cases v with
    | null => exact absurd rfl hv
    | bool b => simp [ensure_optional_str, hne]
    | num n => simp [ensure_optional_str, hne]
    | str s => simp [ensure_optional_str, hne]
    | arr elems => simp [ensure_optional_str, hne]
    | obj fields => simp [ensure_optional_str, hne]
  · intro v hv hempty
    cases v with
    | null => exact absurd rfl hv
    | bool b => simp [ensure_optional_str, hempty]
    | num n => simp [ensure_optional_str, hempty]
    | str s => simp [ensure_optional_str, hempty]
    | arr elems => simp [ensure_optional_str, hempty]
    | obj fields => simp [ensure_optional_str, hempty]
  · intro s hs
    have hempty : pyStrip s = "" := (pyStrip_eq_empty_iff s).mpr hs
    simp [ensure_optional_str, pyStr, hempty]

/-- Witness for C4: the rule evaluated on a whitespace-only and on a padded
string. -/
theorem C4_optional_str_witness :
    ensure_optional_str (.str "  ") = none
    ∧ ensure_optional_str (.str " hi ") = some "hi" := by
  constructor
  · exact C4_optional_str.2.2.2.2 "  " (by decide)
  · have h := C4_optional_str.2.2.1 (.str " hi ")
      (fun hc => JValue.noConfusion hc) (by decide)
    rw [h]
    rfl

/-- Claim C5: for every batch size of at least 1, the chunks concatenate back
to the original sequence, each chunk holds at most `n` elements, every chunk
except possibly the last holds exactly `n`, and an empty input yields zero
chunks. -/
theorem C5_batch_partition {α : Type} (records : List α) (n : Nat) (hn : 1 ≤ n) :
    (chunkedRaw records n).flatten = records
    ∧ (∀ c ∈ chunkedRaw records n, c.length ≤ n)
    ∧ (∀ c ∈ (chunkedRaw records n).dropLast, c.length = n)
    ∧ chunkedRaw ([] : List α) n = [] := by
  have hs : n ≠ 0 := by omega
  exact ⟨chunked_join records n hs, chunked_length_le records n hs,
         chunked_full_chunks records n hs, chunkedRaw_nil n⟩

/-- Witness for C5: the partition property evaluated on five records with
batch size two. -/
theorem C5_batch_partition_witness :
    (chunkedRaw [10, 20, 30, 40, 50] 2).flatten = [10, 20, 30, 40, 50] :=
  (C5_batch_partition [10, 20, 30, 40, 50] 2 (by decide)).1

/-- Claim C6: a non-positive batch size makes the batch operation fail with
the invalid-batch-size error before producing any chunks (the guard raised by
the orchestrator at migrate.py line 225). -/
theorem C6_invalid_batch_size {α : Type} (records : List α) (size : Int)
    (h : size ≤ 0) :
    batchOp records size = .error "batch-size must be a positive integer" := by
  simp [batchOp, h]

/-- Witness for C6: batch size zero on a non-empty record list. -/
theorem C6_invalid_batch_size_witness :
    batchOp [1, 2, 3] 0 = .error "batch-size must be a positive integer" :=
  C6_invalid_batch_size [1, 2, 3] 0 (by decide)

/-- Claim C7: the two-tier write per batch — a successful batch-level request
counts every record of the batch accepted and adds no failure entry; a failing
batch-level request retries each record individually in order, the accepted
delta being the number of individually successful records and each failing
record contributing exactly one `(role_id, error_message)` entry. -/
theorem C7_two_tier {R : Type} (batchTry : List R → Option String)
    (singleTry : R → Option String) (roleId : R → String)
    (acc : Nat × List (String × String)) (batch : List R) :
    (batchTry batch = none →
       processBatch batchTry singleTry roleId acc batch = (acc.1 + batch.length, acc.2))
    ∧ (∀ e, batchTry batch = some e →
       processBatch batchTry singleTry roleId acc batch
         = (acc.1 + (batch.filter (fun r => (singleTry r).isNone)).length,
            acc.2 ++ batch.filterMap (fun r => (singleTry r).map (fun m => (roleId r, m))))) := by
  constructor
  · intro h
    simp [processBatch, h]
  · intro e h
    simp only [processBatch, h]
    exact foldl_retryRecord singleTry roleId batch acc

def cBatchTry : List Nat → Option String := fun _ => some "boom"

def cSingleTry : Nat → Option String := fun r => if r = 2 then some "bad" else none

def cRoleId : Nat → String := fun r => toString r

/-- Witness for C7: a three-record batch whose batch-level write fails and
whose middle record fails individually — two accepted, one failure entry. -/
theorem C7_two_tier_witness :
    processBatch cBatchTry cSingleTry cRoleId (0, []) [1, 2, 3]
      = (2, [("2", "bad")]) := by
  have h := (C7_two_tier cBatchTry cSingleTry cRoleId (0, []) [1, 2, 3]).2 "boom" rfl
  rw [h]
  rfl

/-- The record that makes the normalization loop of `main` crash: its `data`
is a dict but its `extensions` is a non-dict value and no `role_id` exists, so
`normalize_role` raises `ValueError` and the except-handler's hint extraction
then raises an uncaught `AttributeError`. -/
def badRecord : JValue := .obj [("data", .obj [("extensions", .str "oops")])]

/-- Claim C8 (code bug): on `badRecord` normalization fails with the
missing-identity error, the best-effort hint extraction itself raises
`AttributeError`, and the normalization loop therefore aborts instead of
routing the record to the skipped list. -/
theorem C8_hint_crash :
    normalize_role badRecord
        = .error (.valueError "role_id is missing in data.extensions or data")
    ∧ roleIdHint badRecord = .error .attributeError
    ∧ normalizeLoop [badRecord] = .error .attributeError := by
  refine ⟨rfl, rfl, rfl⟩

/-- The run configuration of the C9 counterexample: a valid batch size, a
missing input file, credentials present. -/
def envFileErr : Env :=
  { batch_size := 50
    fileContent := .error "Role library file not found"
    hasCreds := true
    dry_run := false }

/-- Claim C9, counterexample: an unreadable input file — a configuration error
by the claim's own list — ends the run with a NORMAL (zero) outcome: `main`
catches the exception, prints a message and returns. -/
theorem C9_counterexample :
    mainRun envFileErr = ([Event.checkBatchSize, Event.readRecords], Outcome.completed) := by
  rfl

/-- Claim C9 (amended): a non-positive batch size aborts with a non-zero
outcome before the file is read; an unreadable, malformed or wrongly-shaped
input file ends the run before normalization but with a ZERO outcome; missing
store credentials abort with a non-zero outcome, but that check runs only
after all records are read and normalized — and not at all in dry-run mode. -/
theorem C9_config_errors (env : Env) :
    (env.batch_size ≤ 0 →
       mainRun env = ([Event.checkBatchSize],
         .fatal "batch-size must be a positive integer"))
    ∧ (0 < env.batch_size → ∀ msg, load_roles env.fileContent = .error msg →
       mainRun env = ([Event.checkBatchSize, Event.readRecords], .completed))
    ∧ (0 < env.batch_size → ∀ roles result, load_roles env.fileContent = .ok roles →
       normalizeLoop roles = .ok result → env.dry_run = false → env.hasCreds = false →
       mainRun env = ([Event.checkBatchSize, Event.readRecords, Event.normalizeRecords,
                       Event.checkCredentials],
         .fatal "SUPABASE_URL and SUPABASE_KEY must be set in environment variables"))
    ∧ (0 < env.batch_size → ∀ roles result, load_roles env.fileContent = .ok roles →
       normalizeLoop roles = .ok result → env.dry_run = true →
       mainRun env = ([Event.checkBatchSize, Event.readRecords, Event.normalizeRecords],
         .completed)) := by
  refine ⟨?_, ?_, ?_, ?_⟩
  · intro h
    simp [mainRun, h]
  · intro h msg hload
    have hnot : ¬ env.batch_size ≤ 0 := by omega
    simp [mainRun, hnot, hload]
  · intro h roles result hload hnorm hdry hcreds
    have hnot : ¬ env.batch_size ≤ 0 := by omega
    simp [mainRun, hnot, hload, hnorm, hdry, hcreds]
  · intro h roles result hload hnorm hdry
    have hnot : ¬ env.batch_size ≤ 0 := by omega
    simp [mainRun, hnot, hload, hnorm, hdry]

/-- The run configuration of the C9 witness: records load and normalize fine,
no dry run, credentials absent. -/
def envNoCreds : Env :=
  { batch_size := 50
    fileContent := .ok (.arr [])
    hasCreds := false
    dry_run := false }

/-- Witness for C9: with readable input and absent credentials the run aborts
at the credential check, which the trace places after reading and
normalizing. -/
theorem C9_config_errors_witness :
    mainRun envNoCreds = ([Event.checkBatchSize, Event.readRecords,
        Event.normalizeRecords, Event.checkCredentials],
      .fatal "SUPABASE_URL and SUPABASE_KEY must be set in environment variables") :=
  (C9_config_errors envNoCreds).2.2.1 (by decide) [] ([], []) rfl rfl rfl rfl

/-- Claim C10: over any input and any positive batch size, the accepted count
plus the number of failure entries returned by the upsert executor equals the
number of input records — every record is accounted for exactly once. -/
theorem C10_accounting {R : Type} (batchTry : List R → Option String)
    (singleTry : R → Option String) (roleId : R → String)
    (roles : List R) (batch_size : Nat) (h : 1 ≤ batch_size) :
    (upsert_roles batchTry singleTry roleId roles batch_size).1
      + (upsert_roles batchTry singleTry roleId roles batch_size).2.length
      = roles.length := by
  unfold upsert_roles
  rw [foldl_processBatch_total]
  have hj := chunked_join roles batch_size (by omega)
  have hsum : ((chunkedRaw roles batch_size).map List.length).sum = roles.length := by
    conv_rhs => rw [← hj]
    exact (List.length_flatten _).symm
  simpa using hsum

/-- Witness for C10: five records, batch size two, the second batch failing
and one record failing individually — accepted plus failures still covers all
five. -/
theorem C10_accounting_witness :
    (upsert_roles cBatchTry cSingleTry cRoleId [1, 2, 3, 4, 5] 2).1
      + (upsert_roles cBatchTry cSingleTry cRoleId [1, 2, 3, 4, 5] 2).2.length
      = 5 :=
  C10_accounting cBatchTry cSingleTry cRoleId [1, 2, 3, 4, 5] 2 (by decide)
